import Mathlib

/-!
Verification of `network-canary.py`, a single-file network monitor: a
probe (`ping`), a duration formatter (`format_duration`), a webhook
notifier (`send_discord_notification`), a credential loader
(`load_webhook_url`), and the monitor loop (`monitor_network`).

The embedding is shallow: each Python function becomes a Lean function.
External effects (the subprocess run inside `ping`, the HTTP POST inside
`send_discord_notification`, the file read inside `load_webhook_url`,
the wall clock inside the loop) are passed in as explicit outcome values,
so every function is total and executable. Times are integers (seconds).
-/

namespace NetworkCanary

/-! Configuration constants, lines 14-17 of the source. -/

def PING_TARGET : String := "1.1.1.1"

def PING_INTERVAL : Nat := 5

def PING_TIMEOUT : Nat := 3

def WEBHOOK_FILE : String := "webhook-secret"

/-! ### Credential loader, `load_webhook_url`, lines 20-31.

The file system is modelled by an `Option String`: `none` when the file
is absent (the `FileNotFoundError` branch), `some content` when it is
present with that raw content. Python `f.read().strip()` is
`strip content`; Python truthiness `if url` is `!url.isEmpty`.
`sys.exit(1)` becomes the `exits 1` constructor. -/

inductive LoadResult where
  | exits (code : Nat)
  | ok (url : String)
deriving DecidableEq, Repr

/-- Python `str.strip()` with no argument: drop leading and trailing
whitespace. -/
def strip (s : String) : String :=
  ⟨((s.data.dropWhile Char.isWhitespace).reverse.dropWhile Char.isWhitespace).reverse⟩

/-- Python `s.startswith(pre)`: pre is a leading substring of s. -/
def startswith (s pre : String) : Bool := pre.data.isPrefixOf s.data

def load_webhook_url (file_content : Option String) : LoadResult :=
  match file_content with
  | none => .exits 1
  | some content =>
    let url := strip content
    if !url.isEmpty && !(startswith url "http") then .exits 1
    else .ok url

/-! ### Prober, `ping`, lines 34-61.

The platform branch builds the command list exactly as the source does;
the run of that command is an environment-supplied `SubprocessOutcome`:
it completed with a return code, it overran the `timeout + 1` bound
(`subprocess.TimeoutExpired`), or it raised some other exception. Both
exception branches of the source return `False` after the side effect. -/

inductive OSPlatform where
  | windows
  | darwin
  | linux_other
deriving DecidableEq, Repr

def ping_command (system : OSPlatform) (host : String) (timeout : Nat) :
    List String :=
  match system with
  | .windows => ["ping", "-n", "1", "-w", toString (timeout * 1000), host]
  | .darwin => ["ping", "-c", "1", "-W", toString (timeout * 1000), host]
  | .linux_other => ["ping", "-c", "1", "-W", toString timeout, host]

inductive SubprocessOutcome where
  | completed (returncode : Int)
  | timeoutExpired
  | raised (msg : String)
deriving DecidableEq, Repr

def ping (host : String) (timeout : Nat) (system : OSPlatform)
    (outcome : SubprocessOutcome) : Bool :=
  let _command := ping_command system host timeout
  match outcome with
  | .completed rc => rc == 0
  | .timeoutExpired => false
  | .raised _ => false

/-! ### Duration formatter, `format_duration`, lines 64-79.

`duration.total_seconds()` is non-negative in every call site, so the
input is the `Nat` of whole seconds. -/

def plural_suffix (n : Nat) : String := if n != 1 then "s" else ""

def format_duration (total_seconds : Nat) : String :=
  let hours := total_seconds / 3600
  let minutes := (total_seconds % 3600) / 60
  let seconds := total_seconds % 60
  let parts : List String := []
  let parts :=
    if hours > 0 then parts ++ [toString hours ++ " hour" ++ plural_suffix hours]
    else parts
  let parts :=
    if minutes > 0 then parts ++ [toString minutes ++ " minute" ++ plural_suffix minutes]
    else parts
  let parts :=
    if seconds > 0 || parts.isEmpty then
      parts ++ [toString seconds ++ " second" ++ plural_suffix seconds]
    else parts
  String.intercalate ", " parts

/-! ### Notifier, `send_discord_notification`, lines 82-121.

The HTTP POST is an environment-supplied `PostOutcome`: a response with
some status code, or an exception during the request (timeout included).
The source returns `True` exactly on status 204 and `False` otherwise,
logging in the failure branches. The payload built on lines 85-109 only
feeds the POST, so it is not modelled beyond the duration string. -/

inductive PostOutcome where
  | response (status_code : Int)
  | raised (msg : String)
deriving DecidableEq, Repr

def send_discord_notification (webhook_url : String)
    (downtime_start downtime_end : Int) (outcome : PostOutcome) : Bool :=
  let _duration_str := format_duration (downtime_end - downtime_start).toNat
  let _url := webhook_url
  match outcome with
  | .response code => code == 204
  | .raised _ => false

/-! ### Monitor loop, `monitor_network`, lines 124-184.

Loop state: the two locals of lines 140-141. One iteration of the
`while True` body is one tick; what the environment does during a tick
is a `TickEvent`: a probe result together with the wall-clock time and
the outcome of the notification POST should one be attempted
(`send_discord_notification` result, which the source ignores), a
`KeyboardInterrupt` arriving at some point of the body, or any other
exception reaching the `except Exception` handler of lines 182-184. -/

structure MonitorState where
  network_is_up : Bool
  downtime_start : Option Int
deriving DecidableEq, Repr

def initial_state : MonitorState := { network_is_up := true, downtime_start := none }

structure OutageRecord where
  start : Int
  stop : Int
deriving DecidableEq, Repr

inductive InterruptPhase where
  | duringProbe
  | duringNotify
  | duringSleep
  | duringBody
deriving DecidableEq, Repr

inductive TickEvent where
  | probe (current_time : Int) (is_reachable : Bool) (notify_result : Bool)
  | interrupt (phase : InterruptPhase)
  | unexpectedError (msg : String)
deriving Repr

/-- One probe-bearing iteration of the loop body, lines 145-176: the
returned list holds the `OutageRecord` of each notification attempt made
during the tick (the source makes at most one, and ignores its result
`notify_result`). In the branch of lines 149-162 the source reads
`downtime_start` unconditionally; were it `None` there, the subtraction
on line 152 would raise and the outer handler would keep the state
unchanged with no notification, which is what the `none` arm returns
(same for the `none` arm of the still-down branch, line 175). -/
def tick (s : MonitorState) (current_time : Int) (is_reachable : Bool)
    (notify_result : Bool) : MonitorState × List OutageRecord :=
  let _ := notify_result
  if is_reachable then
    if !s.network_is_up then
      match s.downtime_start with
      | some d =>
        ({ network_is_up := true, downtime_start := none },
         [{ start := d, stop := current_time }])
      | none => (s, [])
    else (s, [])
  else
    if s.network_is_up then
      ({ network_is_up := false, downtime_start := some current_time }, [])
    else (s, [])

inductive StepResult where
  | exited (code : Nat)
  | next (s : MonitorState) (notifications : List OutageRecord)
deriving Repr

/-- One full iteration of the `while True` loop of lines 143-184,
including its exception handlers: `KeyboardInterrupt` at any phase of
the body reaches line 181 and exits with code 0 before any notification
of this tick completes; any other exception reaches lines 182-184,
which log, sleep and continue with the state untouched. -/
def step (s : MonitorState) (ev : TickEvent) : StepResult :=
  match ev with
  | .probe t r b =>
    let (s2, ns) := tick s t r b
    .next s2 ns
  | .interrupt _ => .exited 0
  | .unexpectedError _ => .next s []

inductive RunResult where
  | exited (code : Nat) (notifications : List OutageRecord)
  | running (s : MonitorState) (notifications : List OutageRecord)
deriving Repr

def RunResult.notifications : RunResult → List OutageRecord
  | .exited _ ns => ns
  | .running _ ns => ns

def RunResult.isRunning : RunResult → Bool
  | .exited _ _ => false
  | .running _ _ => true

/-- Runs the loop over a finite schedule of tick events, collecting
every notification attempt in order; `running` means the schedule was
exhausted with the loop still alive. -/
def run (s : MonitorState) (evs : List TickEvent) : RunResult :=
  match evs with
  | [] => .running s []
  | ev :: rest =>
    match step s ev with
    | .exited c => .exited c []
    | .next s2 ns =>
      match run s2 rest with
      | .exited c ms => .exited c (ns ++ ms)
      | .running s3 ms => .running s3 (ns ++ ms)

/-- The C2 invariant: `downtime_start` is set exactly when the network
is down. -/
def inv (s : MonitorState) : Prop :=
  s.downtime_start.isSome = !s.network_is_up

/-- Recognizes a probe event with the given result. -/
def TickEvent.isProbeWith (r : Bool) : TickEvent → Bool
  | .probe _ res _ => res == r
  | _ => false

end NetworkCanary

namespace NetworkCanary

/-! ## Helper lemmas -/

theorem tick_preserves_inv (s : MonitorState) (t : Int) (r b : Bool)
    (h : inv s) : inv (tick s t r b).1 := by
  obtain ⟨u, d⟩ := s
  cases u <;> cases r <;> cases d <;> simp_all [tick, inv]

theorem step_preserves_inv (s : MonitorState) (ev : TickEvent)
    (s2 : MonitorState) (ns : List OutageRecord) (h : inv s)
    (hstep : step s ev = .next s2 ns) : inv s2 := by
  cases ev with
  | probe t r b =>
    have e2 : step s (.probe t r b) = .next (tick s t r b).1 (tick s t r b).2 := by
      simp [step]
    rw [e2] at hstep
    cases hstep
    exact tick_preserves_inv s t r b h
  | interrupt phase => simp [step] at hstep
  | unexpectedError msg =>
    simp [step] at hstep
    rw [← hstep.1]
    exact h

theorem run_preserves_inv (evs : List TickEvent) :
    ∀ s0 : MonitorState, inv s0 → ∀ s ns, run s0 evs = .running s ns → inv s := by
  induction evs with
  | nil =>
    intro s0 h s ns hrun
    simp [run] at hrun
    rw [← hrun.1]
    exact h
  | cons ev rest ih =>
    intro s0 h s ns hrun
    cases hstep : step s0 ev with
    | exited c => simp [run, hstep] at hrun
    | next s2 ns2 =>
      have h2 : inv s2 := step_preserves_inv s0 ev s2 ns2 h hstep
      cases hrest : run s2 rest with
      | exited c ms => simp [run, hstep, hrest] at hrun
      | running s3 ms =>
        simp [run, hstep, hrest] at hrun
        rw [← hrun.1]
        exact ih s2 h2 s3 ms hrest

theorem run_all_true (evs : List TickEvent)
    (h : ∀ e ∈ evs, e.isProbeWith true = true) :
    run initial_state evs = .running initial_state [] := by
  induction evs with
  | nil => rfl
  | cons ev rest ih =>
    have hev := h ev (List.mem_cons_self ev rest)
    match ev with
    | .probe t r b =>
      have hr : r = true := by
        cases r
        · simp [TickEvent.isProbeWith] at hev
        · rfl
      subst hr
      have hrest := ih fun e he => h e (List.mem_cons_of_mem _ he)
      have hstep : step initial_state (.probe t true b) = .next initial_state [] := rfl
      simp [run, hstep, hrest]
    | .interrupt phase => simp [TickEvent.isProbeWith] at hev
    | .unexpectedError msg => simp [TickEvent.isProbeWith] at hev

theorem tick_false_no_notification (s : MonitorState) (t : Int) (b : Bool) :
    (tick s t false b).2 = [] := by
  obtain ⟨u, d⟩ := s
  cases u <;> simp [tick]

theorem run_all_false (evs : List TickEvent) :
    ∀ s0 : MonitorState, (∀ e ∈ evs, e.isProbeWith false = true) →
      (run s0 evs).isRunning = true ∧ (run s0 evs).notifications = [] := by
  induction evs with
  | nil => exact fun s0 _ => ⟨rfl, rfl⟩
  | cons ev rest ih =>
    intro s0 h
    have hev := h ev (List.mem_cons_self ev rest)
    match ev with
    | .probe t r b =>
      have hr : r = false := by
        cases r
        · rfl
        · simp [TickEvent.isProbeWith] at hev
      subst hr
      have hrest : ∀ e ∈ rest, e.isProbeWith false = true :=
        fun e he => h e (List.mem_cons_of_mem _ he)
      rcases etick : tick s0 t false b with ⟨s2, ns⟩
      have hns : ns = [] := by
        have := tick_false_no_notification s0 t b
        rw [etick] at this
        exact this
      subst hns
      obtain ⟨ih1, ih2⟩ := ih s2 hrest
      cases hrest2 : run s2 rest with
      | exited c ms =>
        rw [hrest2] at ih1
        simp [RunResult.isRunning] at ih1
      | running s3 ms =>
        rw [hrest2] at ih2
        simp [RunResult.notifications] at ih2
        simp [run, step, etick, hrest2, RunResult.isRunning, RunResult.notifications, ih2]
    | .interrupt phase => simp [TickEvent.isProbeWith] at hev
    | .unexpectedError msg => simp [TickEvent.isProbeWith] at hev

/-! ## Claim theorems -/

/-- The event schedule of claim C1: the probe-result sequence
true, true, false, false, false, true, one result per tick, the tick at
index k observed at wall-clock time `t k`, every notification POST
outcome `b`. -/
def c1_events (t : Nat → Int) (b : Bool) : List TickEvent :=
  [.probe (t 0) true b, .probe (t 1) true b, .probe (t 2) false b,
   .probe (t 3) false b, .probe (t 4) false b, .probe (t 5) true b]

/-- C1: fed the probe sequence [true, true, false, false, false, true],
the loop makes exactly one notification call, whose record starts at the
time of tick 2 (first false) and ends at the time of tick 5 (terminating
true); with ticks PING_INTERVAL apart the reported span is 3 intervals. -/
theorem c1_single_outage_reported (t : Nat → Int) (b : Bool) :
    run initial_state (c1_events t b) =
      .running initial_state [{ start := t 2, stop := t 5 }] ∧
    (∀ t0 : Int,
      run initial_state (c1_events (fun k => t0 + (k : Int) * (PING_INTERVAL : Int)) b) =
        .running initial_state
          [{ start := t0 + 2 * (PING_INTERVAL : Int),
             stop := t0 + 5 * (PING_INTERVAL : Int) }] ∧
      (t0 + 5 * (PING_INTERVAL : Int)) - (t0 + 2 * (PING_INTERVAL : Int)) =
        3 * (PING_INTERVAL : Int)) := by
  constructor
  · rfl
  · intro t0
    exact ⟨rfl, by simp [PING_INTERVAL]⟩

/-- C2: `downtime_start` is non-None exactly when the network is DOWN;
the invariant holds initially, is preserved by every tick, and holds at
every tick boundary reachable from the initial state. -/
theorem c2_downtime_start_iff_down :
    inv initial_state ∧
    (∀ s t r b, inv s → inv (tick s t r b).1) ∧
    (∀ evs s ns, run initial_state evs = .running s ns → inv s) := by
  refine ⟨by simp [inv, initial_state], tick_preserves_inv, ?_⟩
  intro evs s ns hrun
  exact run_preserves_inv evs initial_state (by simp [inv, initial_state]) s ns hrun

/-- Witness for C2 at the initial state and one concrete failing tick. -/
theorem c2_downtime_start_iff_down_witness :
    inv initial_state ∧ inv (tick initial_state 0 false true).1 :=
  ⟨c2_downtime_start_iff_down.1,
   c2_downtime_start_iff_down.2.1 initial_state 0 false true
     c2_downtime_start_iff_down.1⟩

/-- C3: the notifier fires only on a DOWN-to-UP transition: an all-true
probe sequence yields zero notifications, and an all-false sequence
yields zero notifications with the loop still running at every finite
horizon (it never exits on its own). -/
theorem c3_notify_only_on_transition :
    (∀ evs : List TickEvent, (∀ e ∈ evs, e.isProbeWith true = true) →
      run initial_state evs = .running initial_state []) ∧
    (∀ evs : List TickEvent, (∀ e ∈ evs, e.isProbeWith false = true) →
      (run initial_state evs).isRunning = true ∧
      (run initial_state evs).notifications = []) :=
  ⟨run_all_true, fun evs h => run_all_false evs initial_state h⟩

/-- Witness for C3 at one all-true and one all-false schedule. -/
theorem c3_notify_only_on_transition_witness :
    run initial_state [.probe 0 true true] = .running initial_state [] ∧
    (run initial_state [.probe 0 false true]).isRunning = true ∧
    (run initial_state [.probe 0 false true]).notifications = [] :=
  ⟨c3_notify_only_on_transition.1 [.probe 0 true true] (by decide),
   c3_notify_only_on_transition.2 [.probe 0 false true] (by decide)⟩

/-- C4: the duration formatter on 0, 61, 3661, 3600 and 2 seconds. -/
theorem c4_format_duration_examples :
    format_duration 0 = "0 seconds" ∧
    format_duration 61 = "1 minute, 1 second" ∧
    format_duration 3661 = "1 hour, 1 minute, 1 second" ∧
    format_duration 3600 = "1 hour" ∧
    format_duration 2 = "2 seconds" :=
  ⟨rfl, rfl, rfl, rfl, rfl⟩

/-- C5: for every host, positive timeout and platform, the probe is a
total boolean function of the subprocess outcome (no exception escapes),
true exactly when the ping command completed with exit code 0, false on
a non-zero exit code, on timeout expiry and on any execution error. -/
theorem c5_ping_true_iff_exit_zero (host : String) (timeout : Nat)
    (system : OSPlatform) (outcome : SubprocessOutcome) (h : 0 < timeout) :
    ping host timeout system outcome = true ↔
      outcome = SubprocessOutcome.completed 0 := by
  cases outcome <;> simp [ping]

/-- Witness for C5 at the configured target and timeout on Linux. -/
theorem c5_ping_true_iff_exit_zero_witness :
    0 < PING_TIMEOUT ∧
    (ping PING_TARGET PING_TIMEOUT .linux_other (.completed 0) = true ↔
      SubprocessOutcome.completed 0 = SubprocessOutcome.completed 0) :=
  ⟨by decide,
   c5_ping_true_iff_exit_zero PING_TARGET PING_TIMEOUT .linux_other
     (.completed 0) (by decide)⟩

/-- C6: the notifier reports success exactly when the POST outcome is a
response with status code 204; any other status and any raised transport
error yield false without propagating. -/
theorem c6_notifier_success_iff_204 (webhook_url : String)
    (downtime_start downtime_end : Int) (outcome : PostOutcome) :
    send_discord_notification webhook_url downtime_start downtime_end outcome = true ↔
      outcome = PostOutcome.response 204 := by
  cases outcome <;> simp [send_discord_notification]

/-- C7 counterexample: a whitespace-only file content is non-empty and
does not start with "http", yet the loader accepts it (returning the
empty URL) instead of exiting, because the content is stripped before
the check. -/
theorem c7_counterexample :
    (" " : String) ≠ "" ∧ startswith " " "http" = false ∧
    load_webhook_url (some " ") = .ok "" := by
  refine ⟨by decide, by decide, by decide⟩

/-- C7 as amended: absent file exits 1; content whose stripped form is
non-empty and lacks the "http" prefix exits 1; content whose stripped
form is empty is accepted and returned as the empty URL. -/
theorem c7_load_webhook_url_amended :
    load_webhook_url none = .exits 1 ∧
    (∀ content : String, strip content ≠ "" →
      startswith (strip content) "http" = false →
      load_webhook_url (some content) = .exits 1) ∧
    (∀ content : String, strip content = "" →
      load_webhook_url (some content) = .ok "") := by
  refine ⟨rfl, ?_, ?_⟩
  · intro content h1 h2
    simp [load_webhook_url, h2, String.isEmpty_iff, h1]
  · intro content h1
    simp only [load_webhook_url, h1]
    decide

/-- Witness for the amended C7 at a non-URL content and a
whitespace-only content. -/
theorem c7_load_webhook_url_amended_witness :
    load_webhook_url (some "not-a-url") = .exits 1 ∧
    load_webhook_url (some " ") = .ok "" :=
  ⟨c7_load_webhook_url_amended.2.1 "not-a-url" (by decide)
     (by decide),
   c7_load_webhook_url_amended.2.2 " " (by decide)⟩

/-- C8: on a DOWN-to-UP tick, whatever the notification outcome `b`, the
loop makes exactly one notification attempt, ends the tick UP with
`downtime_start` cleared, and continues (the step is `next`, never an
exit). -/
theorem c8_transition_clears_state (d t : Int) (b : Bool) :
    step { network_is_up := false, downtime_start := some d } (.probe t true b) =
      .next { network_is_up := true, downtime_start := none }
        [{ start := d, stop := t }] := rfl

/-- C9: an interrupt at any phase of any tick, from any state, exits the
process with code 0 and sends no notification; any other error during a
tick keeps the loop running with the state unchanged and no
notification. -/
theorem c9_interrupt_exits_cleanly (s : MonitorState) (phase : InterruptPhase)
    (msg : String) (rest : List TickEvent) :
    step s (.interrupt phase) = .exited 0 ∧
    run s (.interrupt phase :: rest) = .exited 0 [] ∧
    step s (.unexpectedError msg) = .next s [] :=
  ⟨rfl, rfl, rfl⟩

/-- C10: the loader strips the content and then tests only the
four-character "http" prefix: any stripped content with that prefix is
accepted verbatim as the endpoint. -/
theorem c10_prefix_only_validation (content : String)
    (h1 : strip content ≠ "") (h2 : startswith (strip content) "http" = true) :
    load_webhook_url (some content) = .ok (strip content) := by
  simp [load_webhook_url, h2]

/-- Witness for C10 at the content "httpgarbage", which is not a URL but
passes validation. -/
theorem c10_prefix_only_validation_witness :
    strip "httpgarbage" = "httpgarbage" ∧
    load_webhook_url (some "httpgarbage") = .ok (strip "httpgarbage") :=
  ⟨by decide, c10_prefix_only_validation "httpgarbage" (by decide)
     (by decide)⟩

end NetworkCanary
